import Mathlib

/-!
Verification of the OPTIMAT provider-matching engine.

Shallow embedding of the matching core:
  * `src/utils/matching.py`   — temporal matcher (`check_time_in_range`,
    `check_time_match`) and geofence matcher (`check_area_match`);
  * `src/services/provider_matcher.py` — orchestrator
    (`find_matching_providers`, `ProviderMatchError`);
  * `src/utils/validation.py` — `validate_match_request`;
  * `src/server.py`           — `validate_provider_match_request`.

Python exceptions are made explicit: each fallible body is embedded as a
`_core` function into `Except PyErr _`, and the source's `try/except` wrapper
becomes a total function mapping any error to the fail-closed result.
-/

namespace Optimat

/-- Python exception classes that can arise in the embedded code paths. -/
inductive PyErr where
  | keyError
  | indexError
  | valueError
  | attributeError
  deriving DecidableEq, Repr

/-- Models `int(s)` on the slices taken by the matcher: a nonempty all-digit
string parses to its decimal value, anything else raises `ValueError`.
(The exotic forms Python's `int` also accepts — signs, surrounding
whitespace, underscores — are modelled as errors; the schedule format
`"HHMM"` never produces them.) -/
def pyInt (s : List Char) : Except PyErr Nat :=
  if s ≠ [] ∧ s.all (·.isDigit) then
    .ok (s.foldl (fun n c => 10 * n + (c.toNat - 48)) 0)
  else
    .error .valueError

/-- Models Python string indexing `s[i]` for a nonnegative index:
`IndexError` when the index is out of range. -/
def strIndex (s : String) (i : Nat) : Except PyErr Char :=
  match s.data.get? i with
  | some c => .ok c
  | none => .error .indexError

/-- Models Python list indexing `l[i]` for a nonnegative index. -/
def listIndex (l : List α) (i : Nat) : Except PyErr α :=
  match l.get? i with
  | some x => .ok x
  | none => .error .indexError

/-- Models a dictionary key access `d[k]`: `KeyError` when absent. -/
def getKey (v : Option α) : Except PyErr α :=
  match v with
  | some x => .ok x
  | none => .error .keyError

/-- A departure/return instant after `datetime.fromisoformat` and the
`astimezone` conversion to the provider's local calendar: Python's
`weekday()` (Monday = 0) together with `hour` and `minute`. The ISO-string
parsing and the pytz conversion are library calls; the matcher only
consumes `(weekday, hour, minute)`. -/
structure LocalInstant where
  weekday : Fin 7
  hour : Nat
  minute : Nat
  deriving DecidableEq, Repr

/-- One element of `service_hours['hours']`: a Python dict whose keys
`'day'`, `'start'`, `'end'` may each be absent (`Option`). `'end'` is a
Lean keyword, so the field is named `stop`. -/
structure HoursEntry where
  day : Option String
  start : Option String
  stop : Option String
  deriving DecidableEq, Repr

/-- The `service_hours` dict: the `'hours'` key may be absent. A `none`
at the outer `Option ServiceHours` models a falsy `service_hours`
(`None` or `{}`). -/
structure ServiceHours where
  hours : Option (List HoursEntry)
  deriving DecidableEq, Repr

/-- Embeds `check_time_in_range` (src/utils/matching.py lines 41-60).
The two `int(...)` calls on the slices `[:2]`/`[2:]` may raise; the raise
propagates to the caller (this function has no handler of its own).
Note the source's midnight branch REASSIGNS `end_minutes` to
`(end_hour - 24) * 60 + end_minute` before the comparison. -/
def check_time_in_range (check_time : LocalInstant)
    (start_time end_time : String) : Except PyErr Bool := do
  let start_hour ← pyInt (start_time.data.take 2)
  let start_minute ← pyInt (start_time.data.drop 2)
  let end_hour ← pyInt (end_time.data.take 2)
  let end_minute ← pyInt (end_time.data.drop 2)
  let check_minutes := check_time.hour * 60 + check_time.minute
  let start_minutes := start_hour * 60 + start_minute
  let end_minutes := end_hour * 60 + end_minute
  if 24 ≤ end_hour then
    let end_minutes := (end_hour - 24) * 60 + end_minute
    let check_minutes :=
      if check_minutes < start_minutes then check_minutes + 24 * 60
      else check_minutes
    pure (decide (start_minutes ≤ check_minutes) &&
          decide (check_minutes ≤ end_minutes))
  else
    pure (decide (start_minutes ≤ check_minutes) &&
          decide (check_minutes ≤ end_minutes))

/-- The body of one iteration of the loop in `check_time_match`
(src/utils/matching.py lines 78-89): day-bit test for both instants,
then the two window tests. Dictionary accesses and string indexing may
raise. `.ok true` means "this entry covers both instants". -/
def entryCovers (e : HoursEntry) (dep ret : LocalInstant) :
    Except PyErr Bool := do
  let day_pattern ← getKey e.day
  let dep_char ← strIndex day_pattern dep.weekday
  let ret_char ← strIndex day_pattern ret.weekday
  if dep_char = '1' ∧ ret_char = '1' then
    let start_s ← getKey e.start
    let end_s ← getKey e.stop
    let dep_ok ← check_time_in_range dep start_s end_s
    let ret_ok ← check_time_in_range ret start_s end_s
    pure (dep_ok && ret_ok)
  else
    pure false

/-- The `for hours in service_hours['hours']` loop: returns `true` at the
first entry covering both instants, `false` after exhausting the list;
an exception in any entry aborts the whole loop. -/
def scanEntries (dep ret : LocalInstant) :
    List HoursEntry → Except PyErr Bool
  | [] => .ok false
  | e :: rest => do
      let covered ← entryCovers e dep ret
      if covered then pure true else scanEntries dep ret rest

/-- The body of `check_time_match` (src/utils/matching.py lines 62-95)
before its `try/except` wrapper. `dep`/`ret` are the results of
`datetime.fromisoformat` + timezone conversion on the request strings:
`none` models an unparsable string (the `ValueError` the conversion
raises). The falsy check on `service_hours` precedes the conversions
in the source; both orders give the same wrapped result, and we keep
the source's order. -/
def check_time_match_core (service_hours : Option ServiceHours)
    (dep ret : Option LocalInstant) : Except PyErr Bool :=
  match service_hours with
  | none => .ok false
  | some sh => do
      let dep ← getKey' dep
      let ret ← getKey' ret
      let hrs ← getKey sh.hours
      scanEntries dep ret hrs
where
  /-- `fromisoformat` failure raises `ValueError`. -/
  getKey' : Option LocalInstant → Except PyErr LocalInstant
  | some v => .ok v
  | none => .error .valueError

/-- `check_time_match` with its `try/except Exception` wrapper: any raise
inside the body is logged and turned into `False` (fail-closed). -/
def check_time_match (service_hours : Option ServiceHours)
    (dep ret : Option LocalInstant) : Bool :=
  match check_time_match_core service_hours dep ret with
  | .ok b => b
  | .error _ => false

/-! ### Geofence matcher (`check_area_match`)

Coordinates are `(longitude, latitude)` pairs; we idealise the source's
floats as integer grid points (every coordinate used in the theorems
below is exactly representable as a float, and the geometric predicates
use only ring operations and order comparisons, so rational inputs are
equivalent to integer ones after clearing denominators). -/

/-- A `(longitude, latitude)` pair. -/
abbrev Coord := ℤ × ℤ

/-- The `'geometry'` member of a GeoJSON feature: `coordinates` is a list
of linear rings, each a list of coordinate pairs. -/
structure Geometry where
  coordinates : List (List Coord)
  deriving DecidableEq

/-- One member of the GeoJSON `'features'` array. -/
structure Feature where
  geometry : Geometry
  deriving DecidableEq

/-- The `service_zone` GeoJSON dict. A falsy zone (`None`/`{}`) is the
`none` of the surrounding `Option Zone`. -/
structure Zone where
  features : List Feature
  deriving DecidableEq

/-- Twice the signed area test: `isLeft a b p > 0` iff `p` lies strictly
left of the directed line `a → b`, `= 0` iff the three points are
collinear. -/
def isLeft (a b p : Coord) : ℤ :=
  (b.1 - a.1) * (p.2 - a.2) - (p.1 - a.1) * (b.2 - a.2)

/-- `p` lies on the closed segment from `a` to `b`. -/
def onSegment (p a b : Coord) : Bool :=
  isLeft a b p = 0 &&
  min a.1 b.1 ≤ p.1 && p.1 ≤ max a.1 b.1 &&
  min a.2 b.2 ≤ p.2 && p.2 ≤ max a.2 b.2

/-- The directed edges of a ring, taken cyclically (shapely closes an
unclosed `LinearRing` automatically; an already-closed ring just yields
one degenerate extra edge, which affects neither test below). -/
def cyclicEdges : List Coord → List (Coord × Coord)
  | [] => []
  | x :: xs => (x :: xs).zip (xs ++ [x])

/-- `p` lies on the boundary of the ring. -/
def onBoundary (p : Coord) (ring : List Coord) : Bool :=
  (cyclicEdges ring).any (fun e => onSegment p e.1 e.2)

/-- Winding number of the ring around `p` (correct for `p` off the
boundary): the standard crossing count over the cyclic edges. -/
def windingNumber (p : Coord) (ring : List Coord) : Int :=
  (cyclicEdges ring).foldl
    (fun w e =>
      let a := e.1
      let b := e.2
      if a.2 ≤ p.2 then
        if p.2 < b.2 ∧ 0 < isLeft a b p then w + 1 else w
      else
        if b.2 ≤ p.2 ∧ isLeft a b p < 0 then w - 1 else w)
    0

/-- Modelled from the shapely/GEOS semantics of `Polygon.contains(Point)`
(the library call in src/utils/matching.py line 109): true iff the point
lies in the INTERIOR of the polygon — a point exactly on the boundary is
not contained. Modelled as a nonzero winding number together with
explicit boundary exclusion. -/
def polyContains (ring : List Coord) (p : Coord) : Bool :=
  !onBoundary p ring && windingNumber p ring ≠ 0

/-- Models the `Polygon(coordinates[0])` constructor: shapely raises
(`ValueError`) when the shell has fewer than 3 coordinate tuples;
otherwise the polygon is the ring itself. -/
def mkPolygon (ring : List Coord) : Except PyErr (List Coord) :=
  if 3 ≤ ring.length then .ok ring else .error .valueError

/-- The body of `check_area_match` (src/utils/matching.py lines 97-113)
before its `try/except` wrapper. `not service_zone or not org_coords or
not dest_coords` is the falsy test on the three arguments (a coordinate
2-tuple is always truthy, so `Option` captures exactly `None`). -/
def check_area_match_core (service_zone : Option Zone)
    (org_coords dest_coords : Option Coord) : Except PyErr Bool :=
  match service_zone, org_coords, dest_coords with
  | some zone, some org, some dest => do
      let feature0 ← listIndex zone.features 0
      let ring0 ← listIndex feature0.geometry.coordinates 0
      let polygon ← mkPolygon ring0
      pure (polyContains polygon org && polyContains polygon dest)
  | _, _, _ => .ok false

/-- `check_area_match` with its `try/except Exception` wrapper: any raise
(missing feature, missing ring, too-short ring) yields `False`. -/
def check_area_match (service_zone : Option Zone)
    (org_coords dest_coords : Option Coord) : Bool :=
  match check_area_match_core service_zone org_coords dest_coords with
  | .ok b => b
  | .error _ => false

/-- The first ring of the zone's first feature, when both exist:
the successful path of the two `[0]` indexings in the source. -/
def firstRing (z : Zone) : Option (List Coord) :=
  match z.features with
  | [] => none
  | f :: _ =>
      match f.geometry.coordinates with
      | [] => none
      | r :: _ => some r

/-! ### Orchestrator (`find_matching_providers`, src/services/provider_matcher.py)

The two external collaborators are passed as oracles:
  * `parseDT : String → Option Int` — `datetime.fromisoformat` on the
    request string after `.replace('Z', '+00:00')`, yielding an abstract
    totally-ordered timestamp, `none` on `ValueError`;
  * `toLocal : Int → LocalInstant` — the `astimezone(pacific)` conversion
    to `(weekday, hour, minute)` used by `check_time_match`;
  * `geocode : String → Option Coord` — `geocode_address`, which returns
    `None` on any failure (never raises).
The provider store is the list of rows the `SELECT ... WHERE provider_id
IS NOT NULL` query returns, in the store's order. -/

/-- One fetched provider row (columns of the orchestrator's query). -/
structure Provider where
  provider_id : Int
  provider_name : String
  provider_type : String
  service_hours : Option ServiceHours
  service_zone : Option Zone
  deriving DecidableEq

/-- One element of the returned list, as built at
src/services/provider_matcher.py lines 94-98. -/
structure MatchResult where
  ID : Int
  Provider : String
  /-- The `"Type"` key (`Type` is not a legal Lean field name). -/
  Type' : String
  deriving DecidableEq, Repr

/-- A well-formed match request: all nine fields present with the types
the orchestrator reads. -/
structure MatchReq where
  departureTime : String
  returnTime : String
  originAddress : String
  destinationAddress : String
  eligibility : List String
  equipment : List String
  healthConditions : List String
  needsCompanion : Bool
  allowsSharing : Bool
  deriving DecidableEq

/-- Error codes carried by `ProviderMatchError`. -/
inductive ErrCode where
  | VALIDATION_ERROR
  | INVALID_TIME_RANGE
  | GEOCODING_ERROR
  | NO_PROVIDERS
  | NO_MATCHES
  | MATCH_PROCESS_ERROR
  deriving DecidableEq, Repr

/-- The `details` dict attached to each `ProviderMatchError`. -/
inductive ErrDetails where
  /-- `{}` — no details supplied. -/
  | noDetails
  /-- `{'departure': ..., 'return': ...}`: both parsed timestamps. -/
  | timeRange (dep ret : Int)
  /-- `{'origin': ..., 'destination': ...}`: both input addresses. -/
  | addresses (origin destination : String)
  /-- `{'criteria': {...}}`: the request's advisory criteria. -/
  | criteria (eligibility equipment healthConditions : List String)
      (needsCompanion allowsSharing : Bool)
  /-- `{'original_error': ...}` for `MATCH_PROCESS_ERROR`. -/
  | originalError
  deriving DecidableEq

/-- `ProviderMatchError(message, error_code, details)`. -/
structure ProviderMatchError where
  message : String
  error_code : ErrCode
  details : ErrDetails
  deriving DecidableEq

/-- In the source, `check_area_match` is an `async def` coroutine invoked
WITHOUT `await` (src/services/provider_matcher.py line 91); the call
returns a coroutine object, which is always truthy, so `if not
check_area_match(...): continue` never fires. This constant records that
truthiness. -/
def unawaitedCoroutineTruthy : Bool := true

/-- One iteration of the filter loop (lines 84-101): skip unless
`check_time_match` passes, then test the (unawaited, hence truthy)
area coroutine, then build the result row. The per-provider
`try/except` is vacuous here: both predicates already swallow their own
exceptions, and the row's keys exist by the shape of the query. -/
def filterStep (dep ret : Option LocalInstant) (p : Provider) :
    Option MatchResult :=
  if check_time_match p.service_hours dep ret then
    if unawaitedCoroutineTruthy then
      some ⟨p.provider_id, p.provider_name, p.provider_type⟩
    else none
  else none

/-- Embeds `find_matching_providers` (src/services/provider_matcher.py
lines 24-128). An unparsable departure/return string raises `ValueError`
at line 42/43, which only the outer `except Exception` catches, so it
surfaces as `MATCH_PROCESS_ERROR`. -/
def find_matching_providers (parseDT : String → Option Int)
    (toLocal : Int → LocalInstant) (geocode : String → Option Coord)
    (providers : List Provider) (req : MatchReq) :
    Except ProviderMatchError (List MatchResult) :=
  match parseDT req.departureTime, parseDT req.returnTime with
  | some dep_time, some ret_time =>
      if ret_time ≤ dep_time then
        .error ⟨"Return time must be after departure time",
                .INVALID_TIME_RANGE, .timeRange dep_time ret_time⟩
      else
        match geocode req.originAddress, geocode req.destinationAddress with
        | some _, some _ =>
            if providers = [] then
              .error ⟨"No providers found in the system",
                      .NO_PROVIDERS, .noDetails⟩
            else
              let matching := providers.filterMap
                (filterStep (some (toLocal dep_time)) (some (toLocal ret_time)))
              if matching = [] then
                .error ⟨"No providers match the given criteria", .NO_MATCHES,
                        .criteria req.eligibility req.equipment
                          req.healthConditions req.needsCompanion
                          req.allowsSharing⟩
              else
                .ok matching
        | _, _ =>
            .error ⟨"Could not geocode one or both addresses",
                    .GEOCODING_ERROR,
                    .addresses req.originAddress req.destinationAddress⟩
  | _, _ =>
      .error ⟨"Provider matching failed", .MATCH_PROCESS_ERROR,
              .originalError⟩

/-! ### Request validation

Two validators exist in the source:
  * `validate_match_request` (src/utils/validation.py lines 11-68), used
    by the `routes/provider_routes.py` path; only the two addresses are
    required, everything else is optional with defaults;
  * `validate_provider_match_request` (src/server.py lines 100-148), used
    by the `/api/match` handler; all nine fields are required.
Both are pure: they run before any database or geocoder call, and their
embeddings take no collaborator oracle. The `datetime.fromisoformat`
format test is the oracle `isoOk`. -/

/-- Models Python's `str.strip()`: drop unicode whitespace from both
ends (structurally, over the character list). -/
def pyStrip (s : String) : String :=
  ⟨((s.data.dropWhile Char.isWhitespace).reverse.dropWhile
      Char.isWhitespace).reverse⟩

/-- A Python JSON value as far as the validators inspect one. The
validators only test listness of the three tag lists and never look at
their elements, so list elements are kept as strings. -/
inductive PyVal where
  | str (s : String)
  | list (l : List String)
  | bool (b : Bool)
  | int (n : Int)
  | none
  deriving DecidableEq, Repr

/-- Python truthiness of a `PyVal`. -/
def PyVal.truthy : PyVal → Bool
  | .str s => !s.isEmpty
  | .list l => !l.isEmpty
  | .bool b => b
  | .int n => n ≠ 0
  | .none => false

/-- The inbound request dict restricted to the nine request keys; `none`
models an absent key. -/
structure ReqData where
  departureTime : Option PyVal
  returnTime : Option PyVal
  originAddress : Option PyVal
  destinationAddress : Option PyVal
  eligibility : Option PyVal
  equipment : Option PyVal
  healthConditions : Option PyVal
  needsCompanion : Option PyVal
  allowsSharing : Option PyVal
  deriving DecidableEq

/-- All nine keys absent: the request dict is falsy (`not req_data`),
modulo unknown extra keys, which neither validator reads. -/
def ReqData.isEmptyDict (r : ReqData) : Bool :=
  r.departureTime.isNone && r.returnTime.isNone &&
  r.originAddress.isNone && r.destinationAddress.isNone &&
  r.eligibility.isNone && r.equipment.isNone &&
  r.healthConditions.isNone && r.needsCompanion.isNone &&
  r.allowsSharing.isNone

/-- Failure of a validator: `invalidUsage` is the `InvalidUsage` /
`ValidationError` (code `VALIDATION_ERROR`) the validator raises itself;
`typeError` models the `AttributeError` a `.replace`/`.strip` call on a
non-string raises, which the validator does NOT catch. -/
inductive ValFail where
  | invalidUsage (msg : String)
  | typeError
  deriving DecidableEq

/-- The required-field check of `validate_match_request` (lines 30-34):
the key must exist, hold a string, and strip to nonempty. Returns the
string. (A present non-string fails the `isinstance` test, which the
source folds into the same `InvalidUsage`.) -/
def requireAddress (field : String) (v : Option PyVal) :
    Except ValFail String :=
  match v with
  | Option.none => .error (.invalidUsage ("Missing required field: " ++ field))
  | some (.str s) =>
      if (pyStrip s).isEmpty then
        .error (.invalidUsage ("Invalid value for field: " ++ field))
      else .ok s
  | some _ => .error (.invalidUsage ("Invalid value for field: " ++ field))

/-- The optional-field loop body of `validate_match_request` (lines
54-66): absent keys take the default; a present truthy value of a time
field must be a string accepted by `datetime.fromisoformat` (a non-string
raises `AttributeError` at the `.replace` call — `typeError`); any other
present value is copied through unchanged. -/
def optionalField (isoOk : String → Bool) (isTime : Bool)
    (v : Option PyVal) (default : PyVal) : Except ValFail PyVal :=
  match v with
  | Option.none => .ok default
  | some x =>
      if isTime && x.truthy then
        match x with
        | .str s =>
            if isoOk (s.replace "Z" "+00:00") then .ok x
            else .error (.invalidUsage "Invalid datetime format")
        | _ => .error .typeError
      else .ok x

/-- Embeds `validate_match_request` (src/utils/validation.py lines
11-68). The returned value is the `validated_data` dict as an
association list in insertion order: the two required fields first
(stored STRIPPED), then the seven optional fields in the order of the
`optional_fields` dict. -/
def validate_match_request (isoOk : String → Bool) (r : ReqData) :
    Except ValFail (List (String × PyVal)) :=
  if r.isEmptyDict then
    .error (.invalidUsage "Request body is empty or invalid JSON")
  else do
  let orig ← requireAddress "originAddress" r.originAddress
  let dest ← requireAddress "destinationAddress" r.destinationAddress
  let depT ← optionalField isoOk true r.departureTime .none
  let retT ← optionalField isoOk true r.returnTime .none
  let elig ← optionalField isoOk false r.eligibility (.list [])
  let equi ← optionalField isoOk false r.equipment (.list [])
  let heal ← optionalField isoOk false r.healthConditions (.list [])
  let comp ← optionalField isoOk false r.needsCompanion (.bool false)
  let shar ← optionalField isoOk false r.allowsSharing (.bool true)
  pure [("originAddress", .str (pyStrip orig)),
        ("destinationAddress", .str (pyStrip dest)),
        ("departureTime", depT), ("returnTime", retT),
        ("eligibility", elig), ("equipment", equi),
        ("healthConditions", heal), ("needsCompanion", comp),
        ("allowsSharing", shar)]

/-- The human-readable names of the missing fields, in the iteration
order of the `required_fields` dict of `validate_provider_match_request`
(src/server.py lines 105-115). -/
def srvMissingFields (r : ReqData) : List String :=
  (if r.departureTime.isNone then ["Departure time"] else []) ++
  (if r.returnTime.isNone then ["Return time"] else []) ++
  (if r.originAddress.isNone then ["Origin address"] else []) ++
  (if r.destinationAddress.isNone then ["Destination address"] else []) ++
  (if r.eligibility.isNone then ["Eligibility criteria"] else []) ++
  (if r.equipment.isNone then ["Equipment needs"] else []) ++
  (if r.healthConditions.isNone then ["Health conditions"] else []) ++
  (if r.needsCompanion.isNone then ["Companion requirement"] else []) ++
  (if r.allowsSharing.isNone then ["Ride sharing preference"] else [])

/-- The per-field type tests of the tail of
`validate_provider_match_request` (src/server.py lines 123-148), reached
only when all nine keys are present. -/
def srvFieldChecks (isoOk : String → Bool) (dep ret oA dA el eq hc nc sh : PyVal) :
    Except ValFail Unit :=
  match dep, ret with
  | .str ds, .str rs =>
      if isoOk (ds.replace "Z" "+00:00") && isoOk (rs.replace "Z" "+00:00") then
        match oA with
        | .str s =>
            if (pyStrip s).isEmpty then
              .error (.invalidUsage "Origin address cannot be empty")
            else
              match dA with
              | .str s' =>
                  if (pyStrip s').isEmpty then
                    .error (.invalidUsage "Destination address cannot be empty")
                  else
                    match el with
                    | .list _ =>
                        match eq with
                        | .list _ =>
                            match hc with
                            | .list _ =>
                                match nc with
                                | .bool _ =>
                                    match sh with
                                    | .bool _ => .ok ()
                                    | _ => .error (.invalidUsage
                                        "Ride sharing preference must be a boolean")
                                | _ => .error (.invalidUsage
                                    "Companion requirement must be a boolean")
                            | _ => .error (.invalidUsage
                                "Health conditions must be a list")
                        | _ => .error (.invalidUsage
                            "Equipment needs must be a list")
                    | _ => .error (.invalidUsage "Eligibility must be a list")
              | _ => .error .typeError
        | _ => .error .typeError
      else .error (.invalidUsage "Invalid date format")
  | _, _ => .error .typeError

/-- Embeds `validate_provider_match_request` (src/server.py lines
100-148): empty-body check, then the missing-field check over all NINE
keys, then per-field format/type checks. Every `invalidUsage` it raises
surfaces as a `VALIDATION_ERROR` response, and it runs before the
handler touches the database pool or the geocoder. -/
def validate_provider_match_request (isoOk : String → Bool) (r : ReqData) :
    Except ValFail Unit :=
  if r.isEmptyDict then
    .error (.invalidUsage "Request body is empty or invalid JSON")
  else
    match srvMissingFields r with
    | names@(_ :: _) =>
        .error (.invalidUsage
          ("Missing required fields: " ++ String.intercalate ", " names))
    | [] =>
        match r.departureTime, r.returnTime, r.originAddress,
              r.destinationAddress, r.eligibility, r.equipment,
              r.healthConditions, r.needsCompanion, r.allowsSharing with
        | some dep, some ret, some oA, some dA, some el, some eq,
          some hc, some nc, some sh =>
            srvFieldChecks isoOk dep ret oA dA el eq hc nc sh
        | _, _, _, _, _, _, _, _, _ =>
            -- unreachable: an absent key would appear in `srvMissingFields`
            .error .typeError

/-! ### Concrete fixtures shared by the theorems below -/

/-- A schedule entry operating every day, 09:00-17:00. -/
def fullWeekEntry : HoursEntry := ⟨some "1111111", some "0900", some "1700"⟩

/-- A schedule entry operating every day, 00:00-23:59 (covers any instant). -/
def allDayEntry : HoursEntry := ⟨some "1111111", some "0000", some "2359"⟩

/-- A malformed entry: `int("XX")` raises `ValueError`. -/
def badStartEntry : HoursEntry := ⟨some "1111111", some "XX00", some "1200"⟩

/-- The spec's midnight-crossing entry: every day, `start="2200"`,
`end="2414"`. -/
def midnightEntry : HoursEntry := ⟨some "1111111", some "2200", some "2414"⟩

/-- A square service-area ring with corners `(0,0)` and `(4,4)`. -/
def sqRing : List Coord := [((0:ℤ), (0:ℤ)), (4, 0), (4, 4), (0, 4)]

/-- A service zone whose single feature's single ring is `sqRing`. -/
def sqZone : Zone := ⟨[⟨⟨[sqRing]⟩⟩]⟩

/-- A timestamp oracle resolving exactly the two fixture strings. -/
def demoParse : String → Option Int :=
  fun s => if s = "DEP" then some 0 else if s = "RET" then some 60 else none

/-- A local-calendar oracle sending every timestamp to Wednesday 10:00. -/
def demoLocal : Int → LocalInstant := fun _ => ⟨2, 10, 0⟩

/-- A geocoder resolving every address to `(10, 10)` — outside `sqZone`. -/
def demoGeoOutside : String → Option Coord := fun _ => some (10, 10)

/-- A well-formed fixture request. -/
def demoReq : MatchReq :=
  ⟨"DEP", "RET", "123 Main St", "456 Oak Ave", ["senior"], [], [], false, true⟩

/-- A provider operating 09:00-17:00 every day inside `sqZone`. -/
def demoProvider (i : Int) (name : String) : Provider :=
  ⟨i, name, "paratransit", some ⟨some [fullWeekEntry]⟩, some sqZone⟩

/-! ### Claim theorems -/

/-- C1: the claim says an entry with `end ≥ "2400"` covers a minute `m`
iff `m ≥ start` or `m ≤ end − 1440`, so `start="2200", end="2414"` must
match 23:50 same-day and 00:10 next-day. The code disagrees: the
midnight branch of `check_time_in_range` REASSIGNS `end_minutes` to
`(end_hour − 24) * 60 + end_minute` (= 14), so the final comparison
`start_minutes ≤ check_minutes ≤ end_minutes` demands
`1320 ≤ m' ≤ 14` — unsatisfiable; the entry matches neither instant,
and `check_time_match` rejects the spec's round trip. -/
theorem C1_midnight_crossing_entry_rejects_both_instants :
    check_time_in_range ⟨2, 23, 50⟩ "2200" "2414" = .ok false ∧
    check_time_in_range ⟨3, 0, 10⟩ "2200" "2414" = .ok false ∧
    check_time_match (some ⟨some [midnightEntry]⟩)
      (some ⟨2, 23, 50⟩) (some ⟨3, 0, 10⟩) = false := by
  refine ⟨rfl, rfl, rfl⟩

/-- C3 counterexample: the claim says a point exactly on the polygon
boundary counts as covered. The code calls shapely's strict
`polygon.contains`, so the boundary point `(2, 0)` of the square
`sqRing` is NOT covered even though the interior point `(2, 2)` is. -/
theorem C3_boundary_point_not_covered :
    onBoundary (2, 0) sqRing = true ∧
    polyContains sqRing (2, 2) = true ∧
    check_area_match (some sqZone) (some (2, 0)) (some (2, 2)) = false ∧
    check_area_match (some sqZone) (some (2, 2)) (some (2, 2)) = true := by
  refine ⟨by decide, by decide, rfl, rfl⟩

/-- C3 amended: `check_area_match` returns true iff the zone and both
coordinates are present, the zone's first feature has a first ring of at
least 3 points, and both points lie STRICTLY inside that ring's interior
(a boundary point is not covered); absent zone/coordinates, missing
polygon, and parse failure all yield false. -/
theorem C3_strict_interior_containment (zone : Option Zone)
    (org dest : Option Coord) :
    check_area_match zone org dest = true ↔
    ∃ z o d ring, zone = some z ∧ org = some o ∧ dest = some d ∧
      firstRing z = some ring ∧ 3 ≤ ring.length ∧
      polyContains ring o = true ∧ polyContains ring d = true := by
  cases zone with
  | none => simp [check_area_match, check_area_match_core]
  | some z =>
    cases org with
    | none => simp [check_area_match, check_area_match_core]
    | some o =>
      cases dest with
      | none => simp [check_area_match, check_area_match_core]
      | some d =>
        cases hf : z.features with
        | nil =>
          simp [check_area_match, check_area_match_core, listIndex, hf,
                firstRing, Bind.bind, Except.bind]
        | cons f fs =>
          cases hr : f.geometry.coordinates with
          | nil =>
            simp [check_area_match, check_area_match_core, listIndex, hf, hr,
                  firstRing, Bind.bind, Except.bind]
          | cons r rs =>
            by_cases hlen : 3 ≤ r.length
            · simp [check_area_match, check_area_match_core, listIndex, hf,
                    hr, firstRing, mkPolygon, hlen, Bool.and_eq_true,
                    Bind.bind, Except.bind, Functor.map, Except.map,
                    Pure.pure, Except.pure]
            · simp [check_area_match, check_area_match_core, listIndex, hf,
                    hr, firstRing, mkPolygon, hlen,
                    Bind.bind, Except.bind, Functor.map, Except.map]

/-- C4 counterexample: the claim says a malformed entry is skipped and a
later well-formed entry still yields true. In the code the `try/except`
wraps the WHOLE loop, so the `ValueError` raised while parsing the
malformed entry's `start="XX00"` aborts the loop and the schedule
evaluates to false — even though the following entry alone covers both
instants. -/
theorem C4_malformed_entry_fatal :
    entryCovers badStartEntry ⟨2, 10, 0⟩ ⟨2, 11, 0⟩ = .error .valueError ∧
    check_time_match (some ⟨some [allDayEntry]⟩)
      (some ⟨2, 10, 0⟩) (some ⟨2, 11, 0⟩) = true ∧
    check_time_match (some ⟨some [badStartEntry, allDayEntry]⟩)
      (some ⟨2, 10, 0⟩) (some ⟨2, 11, 0⟩) = false := by
  refine ⟨rfl, rfl, rfl⟩

/-- C4 amended: a malformed entry whose evaluation raises (day-mask
shorter than the queried weekday index, or unparsable start/end reached
because both day bits are '1') is FATAL to the whole schedule: the
exception is caught at schedule level and `check_time_match` returns
false regardless of any later well-formed entries; only a malformed
entry whose evaluation happens not to raise is skipped. -/
theorem C4_entry_error_fails_schedule (bad : HoursEntry)
    (rest : List HoursEntry) (dep ret : LocalInstant) (e : PyErr)
    (h : entryCovers bad dep ret = .error e) :
    check_time_match (some ⟨some (bad :: rest)⟩) (some dep) (some ret) =
      false := by
  simp [check_time_match, check_time_match_core, check_time_match_core.getKey',
        getKey, scanEntries, h, Bind.bind, Except.bind]

/-- C4 witness: the amended theorem applied to `badStartEntry` followed
by `allDayEntry`. -/
theorem C4_entry_error_fails_schedule_witness :
    entryCovers badStartEntry ⟨2, 10, 0⟩ ⟨2, 11, 0⟩ = .error .valueError ∧
    check_time_match (some ⟨some [badStartEntry, allDayEntry]⟩)
      (some ⟨2, 10, 0⟩) (some ⟨2, 11, 0⟩) = false :=
  ⟨rfl, C4_entry_error_fails_schedule badStartEntry [allDayEntry]
    ⟨2, 10, 0⟩ ⟨2, 11, 0⟩ .valueError rfl⟩

/-- C9: both predicates are fail-closed total Boolean functions: they
are total by construction (every Python raise is an explicit `.error` of
the `_core` embedding), and whenever the body raises — falsy or
malformed schedule/zone, missing dictionary key, unparsable time string,
missing coordinates, too-short ring — the `try/except` wrapper turns the
exception into `false` rather than propagating it. -/
theorem C9_predicates_fail_closed (sh : Option ServiceHours)
    (dep ret : Option LocalInstant) (zone : Option Zone)
    (org dest : Option Coord) (e₁ e₂ : PyErr)
    (h₁ : check_time_match_core sh dep ret = .error e₁)
    (h₂ : check_area_match_core zone org dest = .error e₂) :
    check_time_match sh dep ret = false ∧
    check_area_match zone org dest = false := by
  refine ⟨?_, ?_⟩
  · simp [check_time_match, h₁]
  · simp [check_area_match, h₂]

/-- The filter loop appends results in the store's iteration order: the
IDs of the produced rows are exactly the IDs of the temporally matching
providers, in the order the store yielded them (the unawaited area
coroutine is truthy and filters nothing). -/
lemma filterMap_filterStep_map_ID (dep ret : Option LocalInstant)
    (ps : List Provider) :
    ((ps.filterMap (filterStep dep ret)).map MatchResult.ID) =
      (ps.filter
        (fun p => check_time_match p.service_hours dep ret)).map
        Provider.provider_id := by
  induction ps with
  | nil => rfl
  | cons p ps ih =>
    cases hc : check_time_match p.service_hours dep ret with
    | true => simp [filterStep, hc, unawaitedCoroutineTruthy, List.filter, ih]
    | false => simp [filterStep, hc, List.filter, ih]

/-- C2: the claim says a candidate is retained iff the temporal AND the
geofence predicates succeed, and that a candidate whose zone contains
neither endpoint is excluded. In the code `check_area_match` is an
`async def` called without `await`, so the filter tests a coroutine
object — always truthy — and the geofence never excludes anyone: a
provider whose square zone contains neither geocoded endpoint (both are
`(10,10)`, outside `sqZone`) is still returned, even though the pure
geofence predicate rejects those points. -/
theorem C2_geofence_never_excludes :
    find_matching_providers demoParse demoLocal demoGeoOutside
      [demoProvider 1 "Acme"] demoReq =
      .ok [⟨1, "Acme", "paratransit"⟩] ∧
    check_area_match (some sqZone) (some (10, 10)) (some (10, 10)) =
      false := by
  refine ⟨rfl, rfl⟩

/-- C5: for every well-formed request and any behaviour of the
collaborator oracles, the orchestrator either returns a non-empty result
list or fails with exactly one structured `ProviderMatchError` whose
code is in the documented taxonomy; it never returns an empty list. -/
theorem C5_match_outcome_total (parseDT : String → Option Int)
    (toLocal : Int → LocalInstant) (geocode : String → Option Coord)
    (providers : List Provider) (req : MatchReq) :
    (∃ l, find_matching_providers parseDT toLocal geocode providers req =
        .ok l ∧ l ≠ []) ∨
    (∃ e, find_matching_providers parseDT toLocal geocode providers req =
        .error e ∧
      (e.error_code = .VALIDATION_ERROR ∨
       e.error_code = .INVALID_TIME_RANGE ∨
       e.error_code = .GEOCODING_ERROR ∨
       e.error_code = .NO_PROVIDERS ∨
       e.error_code = .NO_MATCHES ∨
       e.error_code = .MATCH_PROCESS_ERROR)) := by
  unfold find_matching_providers
  split
  · split
    · exact .inr ⟨_, rfl, by simp⟩
    · split
      · split
        · exact .inr ⟨_, rfl, by simp⟩
        · dsimp only
          split
          · exact .inr ⟨_, rfl, by simp⟩
          · next hm => exact .inl ⟨_, rfl, hm⟩
      · exact .inr ⟨_, rfl, by simp⟩
  · exact .inr ⟨_, rfl, by simp⟩

/-- C6 counterexample: the claim says the result list is ordered by
ascending provider id whatever order the store yields candidates. The
filter loop appends in store order and nothing ever sorts (the SQL query
has no ORDER BY), so a store yielding ids `[2, 1]` produces the result
list `[2, 1]`, which is not ascending. -/
theorem C6_store_order_not_sorted :
    find_matching_providers demoParse demoLocal demoGeoOutside
      [demoProvider 2 "B", demoProvider 1 "A"] demoReq =
      .ok [⟨2, "B", "paratransit"⟩, ⟨1, "A", "paratransit"⟩] ∧
    ¬ (2 : ℤ) ≤ 1 := by
  refine ⟨rfl, by decide⟩

/-- C6 amended: the result list preserves the provider store's iteration
order — its IDs are exactly the IDs of the temporally matching
candidates in the order the store yielded them; the list is ascending
only when the store happens to yield candidates in ascending id order. -/
theorem C6_result_preserves_store_order (parseDT : String → Option Int)
    (toLocal : Int → LocalInstant) (geocode : String → Option Coord)
    (providers : List Provider) (req : MatchReq)
    (l : List MatchResult)
    (h : find_matching_providers parseDT toLocal geocode providers req =
      .ok l) :
    ∃ dep ret, parseDT req.departureTime = some dep ∧
      parseDT req.returnTime = some ret ∧
      l.map MatchResult.ID =
        (providers.filter (fun p => check_time_match p.service_hours
          (some (toLocal dep)) (some (toLocal ret)))).map
          Provider.provider_id := by
  unfold find_matching_providers at h
  split at h
  · rename_i dep ret hd hr
    split at h
    · exact absurd h (by simp)
    · split at h
      · split at h
        · exact absurd h (by simp)
        · dsimp only at h
          split at h
          · exact absurd h (by simp)
          · cases h
            exact ⟨dep, ret, hd, hr,
              filterMap_filterStep_map_ID _ _ providers⟩
      · exact absurd h (by simp)
  · exact absurd h (by simp)

/-- C6 witness: the amended theorem at the two-provider fixture with the
store yielding ids `[2, 1]`. -/
theorem C6_result_preserves_store_order_witness :
    ∃ dep ret, demoParse demoReq.departureTime = some dep ∧
      demoParse demoReq.returnTime = some ret ∧
      ([⟨2, "B", "paratransit"⟩, ⟨1, "A", "paratransit"⟩].map
          MatchResult.ID) =
        (([demoProvider 2 "B", demoProvider 1 "A"].filter
          (fun p => check_time_match p.service_hours
            (some (demoLocal dep)) (some (demoLocal ret)))).map
          Provider.provider_id) :=
  C6_result_preserves_store_order demoParse demoLocal demoGeoOutside
    [demoProvider 2 "B", demoProvider 1 "A"] demoReq
    [⟨2, "B", "paratransit"⟩, ⟨1, "A", "paratransit"⟩] rfl

/-- C7: whenever the parsed return time is not strictly after the parsed
departure time, the orchestrator fails with `INVALID_TIME_RANGE` and the
error's details carry both timestamps; the result does not depend on the
geocoder oracle, the local-calendar oracle, or the provider store, which
are therefore never consulted before the failure. -/
theorem C7_invalid_time_range_before_io (parseDT : String → Option Int)
    (toLocal : Int → LocalInstant) (geocode : String → Option Coord)
    (providers : List Provider) (req : MatchReq) (dep ret : Int)
    (hd : parseDT req.departureTime = some dep)
    (hr : parseDT req.returnTime = some ret)
    (hle : ret ≤ dep) :
    find_matching_providers parseDT toLocal geocode providers req =
      .error ⟨"Return time must be after departure time",
              .INVALID_TIME_RANGE, .timeRange dep ret⟩ := by
  unfold find_matching_providers
  rw [hd, hr]
  dsimp only
  rw [if_pos hle]

/-- C7 witness: a request whose return timestamp equals its departure
timestamp fails with `INVALID_TIME_RANGE` carrying both timestamps, for
the fixture oracles. -/
theorem C7_invalid_time_range_witness :
    (fun s => if s = "SAME" then some (5 : Int) else none) "SAME" =
      some 5 ∧ (5 : Int) ≤ 5 ∧
    find_matching_providers (fun s => if s = "SAME" then some 5 else none)
      demoLocal demoGeoOutside [demoProvider 1 "Acme"]
      ⟨"SAME", "SAME", "a", "b", [], [], [], false, true⟩ =
      .error ⟨"Return time must be after departure time",
              .INVALID_TIME_RANGE, .timeRange 5 5⟩ :=
  ⟨rfl, by decide,
    C7_invalid_time_range_before_io _ demoLocal demoGeoOutside
      [demoProvider 1 "Acme"] ⟨"SAME", "SAME", "a", "b", [], [], [], false, true⟩
      5 5 rfl rfl (by decide)⟩

/-- On success, `requireAddress` returns exactly the string stored under
the key, and its strip is nonempty. -/
lemma requireAddress_ok {field : String} {v : Option PyVal} {s : String}
    (h : requireAddress field v = .ok s) :
    v = some (.str s) ∧ pyStrip s ≠ "" := by
  cases v with
  | none => exact absurd h (by simp [requireAddress])
  | some x =>
    cases x with
    | str t =>
      by_cases ht : (pyStrip t).isEmpty
      · rw [requireAddress, if_pos ht] at h
        exact absurd h (by simp)
      · rw [requireAddress, if_neg ht] at h
        cases h
        refine ⟨rfl, fun he => ht ?_⟩
        rw [he]
        rfl
    | list l => exact absurd h (by simp [requireAddress])
    | bool b => exact absurd h (by simp [requireAddress])
    | int n => exact absurd h (by simp [requireAddress])
    | none => exact absurd h (by simp [requireAddress])

/-- On success, the optional-field loop body returns the input value
when the key is present and the default when it is absent. -/
lemma optionalField_ok {isoOk : String → Bool} {isTime : Bool}
    {v : Option PyVal} {default x : PyVal}
    (h : optionalField isoOk isTime v default = .ok x) :
    x = v.getD default := by
  cases v with
  | none =>
    rw [optionalField] at h
    cases h
    rfl
  | some y =>
    cases y with
    | str s =>
      simp only [optionalField] at h
      split at h
      · split at h
        · cases h; rfl
        · exact absurd h (by simp)
      · cases h; rfl
    | list l =>
      simp only [optionalField] at h
      split at h
      · exact absurd h (by simp)
      · cases h; rfl
    | bool b =>
      simp only [optionalField] at h
      split at h
      · exact absurd h (by simp)
      · cases h; rfl
    | int n =>
      simp only [optionalField] at h
      split at h
      · exact absurd h (by simp)
      · cases h; rfl
    | none =>
      simp only [optionalField] at h
      split at h
      · exact absurd h (by simp)
      · cases h; rfl

/-- C8 counterexample: the claim says a request omitting `departureTime`
or `returnTime` fails with `VALIDATION_ERROR`. Under the routes-path
validator `validate_match_request`, both time fields are OPTIONAL: a
request carrying only the two addresses validates successfully, with the
time fields defaulted to `None`. -/
theorem C8_routes_validator_accepts_missing_times :
    validate_match_request (fun _ => true)
      ⟨Option.none, Option.none, some (.str "123 Main St"),
       some (.str "456 Oak Ave"), Option.none, Option.none, Option.none,
       Option.none, Option.none⟩ =
      .ok [("originAddress", .str "123 Main St"),
           ("destinationAddress", .str "456 Oak Ave"),
           ("departureTime", .none), ("returnTime", .none),
           ("eligibility", .list []), ("equipment", .list []),
           ("healthConditions", .list []), ("needsCompanion", .bool false),
           ("allowsSharing", .bool true)] := by
  rfl

/-- C8 amended: only the server.py entry point behaves as claimed — its
validator `validate_provider_match_request` requires all nine fields,
so a request missing `departureTime` or `returnTime` fails with the
`VALIDATION_ERROR`-class `InvalidUsage` before any I/O (the validator is
a pure function run before the handler touches the pool or geocoder);
the routes-path validator `validate_match_request` treats both time
fields as optional and validates such a request successfully. -/
theorem C8_server_validator_requires_time_fields (isoOk : String → Bool)
    (r : ReqData)
    (h : r.departureTime = Option.none ∨ r.returnTime = Option.none) :
    ∃ msg, validate_provider_match_request isoOk r =
      .error (.invalidUsage msg) := by
  unfold validate_provider_match_request
  by_cases he : r.isEmptyDict
  · exact ⟨_, by rw [if_pos he]⟩
  · rw [if_neg he]
    have hne : srvMissingFields r ≠ [] := by
      unfold srvMissingFields
      rcases h with h | h
      · simp [h]
      · simp [h]
    cases hm : srvMissingFields r with
    | nil => exact absurd hm hne
    | cons a t => exact ⟨_, rfl⟩

/-- C8 witness: the amended theorem at a request carrying every field
except `departureTime`. -/
theorem C8_server_validator_requires_time_fields_witness :
    ((⟨Option.none, some (.str "2024-03-20T14:45:00-07:00"),
       some (.str "a"), some (.str "b"), some (.list []), some (.list []),
       some (.list []), some (.bool false),
       some (.bool true)⟩ : ReqData).departureTime = Option.none ∨
     (⟨Option.none, some (.str "2024-03-20T14:45:00-07:00"),
       some (.str "a"), some (.str "b"), some (.list []), some (.list []),
       some (.list []), some (.bool false),
       some (.bool true)⟩ : ReqData).returnTime = Option.none) ∧
    ∃ msg, validate_provider_match_request (fun _ => true)
      ⟨Option.none, some (.str "2024-03-20T14:45:00-07:00"),
       some (.str "a"), some (.str "b"), some (.list []), some (.list []),
       some (.list []), some (.bool false), some (.bool true)⟩ =
      .error (.invalidUsage msg) :=
  ⟨Or.inl rfl,
   C8_server_validator_requires_time_fields (fun _ => true) _ (Or.inl rfl)⟩

/-- C10: whenever `validate_match_request` succeeds, the returned dict
has exactly the nine request keys (in insertion order); the two
addresses were present as strings and are stored stripped and nonempty;
and every optional field holds the input value when present and its
default when absent — `None` for the two times, `[]` for the three tag
lists, `False` for `needsCompanion`, `True` for `allowsSharing`. -/
theorem C10_validated_request_shape (isoOk : String → Bool) (r : ReqData)
    (out : List (String × PyVal))
    (h : validate_match_request isoOk r = .ok out) :
    ∃ oS dS, r.originAddress = some (.str oS) ∧
      r.destinationAddress = some (.str dS) ∧
      pyStrip oS ≠ "" ∧ pyStrip dS ≠ "" ∧
      out = [("originAddress", .str (pyStrip oS)),
             ("destinationAddress", .str (pyStrip dS)),
             ("departureTime", r.departureTime.getD .none),
             ("returnTime", r.returnTime.getD .none),
             ("eligibility", r.eligibility.getD (.list [])),
             ("equipment", r.equipment.getD (.list [])),
             ("healthConditions", r.healthConditions.getD (.list [])),
             ("needsCompanion", r.needsCompanion.getD (.bool false)),
             ("allowsSharing", r.allowsSharing.getD (.bool true))] ∧
      out.map Prod.fst =
        ["originAddress", "destinationAddress", "departureTime",
         "returnTime", "eligibility", "equipment", "healthConditions",
         "needsCompanion", "allowsSharing"] := by
  unfold validate_match_request at h
  split at h
  · exact absurd h (by simp)
  · cases h1 : requireAddress "originAddress" r.originAddress with
    | error e => rw [h1] at h; exact absurd h (by simp [Bind.bind, Except.bind])
    | ok orig =>
      rw [h1] at h
      cases h2 : requireAddress "destinationAddress" r.destinationAddress with
      | error e =>
        rw [h2] at h; exact absurd h (by simp [Bind.bind, Except.bind])
      | ok dest =>
        rw [h2] at h
        cases h3 : optionalField isoOk true r.departureTime .none with
        | error e =>
          rw [h3] at h; exact absurd h (by simp [Bind.bind, Except.bind])
        | ok depT =>
          rw [h3] at h
          cases h4 : optionalField isoOk true r.returnTime .none with
          | error e =>
            rw [h4] at h; exact absurd h (by simp [Bind.bind, Except.bind])
          | ok retT =>
            rw [h4] at h
            cases h5 : optionalField isoOk false r.eligibility (.list []) with
            | error e =>
              rw [h5] at h; exact absurd h (by simp [Bind.bind, Except.bind])
            | ok elig =>
              rw [h5] at h
              cases h6 : optionalField isoOk false r.equipment (.list []) with
              | error e =>
                rw [h6] at h
                exact absurd h (by simp [Bind.bind, Except.bind])
              | ok equi =>
                rw [h6] at h
                cases h7 : optionalField isoOk false r.healthConditions
                    (.list []) with
                | error e =>
                  rw [h7] at h
                  exact absurd h (by simp [Bind.bind, Except.bind])
                | ok heal =>
                  rw [h7] at h
                  cases h8 : optionalField isoOk false r.needsCompanion
                      (.bool false) with
                  | error e =>
                    rw [h8] at h
                    exact absurd h (by simp [Bind.bind, Except.bind])
                  | ok comp =>
                    rw [h8] at h
                    cases h9 : optionalField isoOk false r.allowsSharing
                        (.bool true) with
                    | error e =>
                      rw [h9] at h
                      exact absurd h (by simp [Bind.bind, Except.bind])
                    | ok shar =>
                      rw [h9] at h
                      simp only [Bind.bind, Except.bind, Pure.pure,
                        Except.pure, Except.ok.injEq] at h
                      obtain ⟨ho, hos⟩ := requireAddress_ok h1
                      obtain ⟨hdn, hds⟩ := requireAddress_ok h2
                      refine ⟨orig, dest, ho, hdn, hos, hds, ?_, ?_⟩
                      · rw [← h, optionalField_ok h3, optionalField_ok h4,
                            optionalField_ok h5, optionalField_ok h6,
                            optionalField_ok h7, optionalField_ok h8,
                            optionalField_ok h9]
                      · rw [← h]; rfl

/-- C10 witness: the theorem at a concrete request with padded
addresses and every optional field absent. -/
theorem C10_validated_request_shape_witness :
    validate_match_request (fun _ => true)
      ⟨Option.none, Option.none, some (.str " 123 Main St "),
       some (.str "456 Oak Ave"), Option.none, Option.none, Option.none,
       Option.none, Option.none⟩ =
      .ok [("originAddress", .str "123 Main St"),
           ("destinationAddress", .str "456 Oak Ave"),
           ("departureTime", .none), ("returnTime", .none),
           ("eligibility", .list []), ("equipment", .list []),
           ("healthConditions", .list []), ("needsCompanion", .bool false),
           ("allowsSharing", .bool true)] ∧
    ∃ oS dS,
      (some (PyVal.str " 123 Main St ") : Option PyVal) = some (.str oS) ∧
      (some (PyVal.str "456 Oak Ave") : Option PyVal) = some (.str dS) ∧
      pyStrip oS ≠ "" ∧ pyStrip dS ≠ "" ∧
      ([("originAddress", PyVal.str "123 Main St"),
        ("destinationAddress", PyVal.str "456 Oak Ave"),
        ("departureTime", PyVal.none), ("returnTime", PyVal.none),
        ("eligibility", PyVal.list []), ("equipment", PyVal.list []),
        ("healthConditions", PyVal.list []),
        ("needsCompanion", PyVal.bool false),
        ("allowsSharing", PyVal.bool true)] : List (String × PyVal)) =
        [("originAddress", .str (pyStrip oS)),
         ("destinationAddress", .str (pyStrip dS)),
         ("departureTime", PyVal.none), ("returnTime", PyVal.none),
         ("eligibility", PyVal.list []), ("equipment", PyVal.list []),
         ("healthConditions", PyVal.list []),
         ("needsCompanion", PyVal.bool false),
         ("allowsSharing", PyVal.bool true)] ∧
      ([("originAddress", PyVal.str "123 Main St"),
        ("destinationAddress", PyVal.str "456 Oak Ave"),
        ("departureTime", PyVal.none), ("returnTime", PyVal.none),
        ("eligibility", PyVal.list []), ("equipment", PyVal.list []),
        ("healthConditions", PyVal.list []),
        ("needsCompanion", PyVal.bool false),
        ("allowsSharing", PyVal.bool true)] : List (String × PyVal)).map
          Prod.fst =
        ["originAddress", "destinationAddress", "departureTime",
         "returnTime", "eligibility", "equipment", "healthConditions",
         "needsCompanion", "allowsSharing"] := by
  refine ⟨rfl, ?_⟩
  have := C10_validated_request_shape (fun _ => true)
    ⟨Option.none, Option.none, some (.str " 123 Main St "),
     some (.str "456 Oak Ave"), Option.none, Option.none, Option.none,
     Option.none, Option.none⟩
    [("originAddress", .str "123 Main St"),
     ("destinationAddress", .str "456 Oak Ave"),
     ("departureTime", .none), ("returnTime", .none),
     ("eligibility", .list []), ("equipment", .list []),
     ("healthConditions", .list []), ("needsCompanion", .bool false),
     ("allowsSharing", .bool true)] rfl
  exact this

/-- C9 witness: a schedule dict without the `'hours'` key raises
`KeyError`; a zone with an empty `'features'` array raises `IndexError`;
both wrapped calls return false. -/
theorem C9_predicates_fail_closed_witness :
    check_time_match (some ⟨none⟩) (some ⟨2, 10, 0⟩) (some ⟨2, 11, 0⟩) =
      false ∧
    check_area_match (some ⟨[]⟩) (some (2, 2)) (some (2, 2)) = false :=
  C9_predicates_fail_closed (some ⟨none⟩) (some ⟨2, 10, 0⟩)
    (some ⟨2, 11, 0⟩) (some ⟨[]⟩) (some (2, 2)) (some (2, 2))
    .keyError .indexError rfl rfl

end Optimat
